import Mathlib

/-!
Shallow embedding of `src/weather_scaler.go` (package `scalers`, the KEDA
weather scaler trigger) and proofs about its specified behavior.

Modelling conventions:
* Go `float64` reading fields are modelled as rationals (ℚ); the Go
  conversion `int(x)` (truncation toward zero) is `truncQ`.
* Go machine integers are modelled as unbounded `Int` (no claim here
  exercises overflow; `strconv.Atoi` range errors are likewise out of
  scope and noted at `atoi`).
* The external world of one HTTP round trip is a `FetchOutcome` value:
  either the network call fails, reading the body fails, JSON decoding
  fails, or a decoded `WeatherDataList` is obtained.  Each error carries
  the Go error (modelled by its message string), so "propagated
  unchanged" is expressible.
* A Go function returning `(value, error)` becomes `GoResult`; a run-time
  panic (index out of range on `wDat.List[0]`) is the `GoResult.panic`
  constructor.
* `url.ParseRequestURI` is Go standard-library code, external to the
  repository; `parseWeatherMetadata` is parameterized by the validator
  `validURI : String → Bool`, and theorems quantify over it.
* `kedautil.NormalizeString` is external KEDA utility code; it is
  modelled by `normalizeString` (replace the characters / . : % by a
  dash), which is the identity on the literal "weather".
-/

namespace Scalers

/-- Go errors, modelled by their message strings. -/
abbrev GoError := String

/-- Result of a Go function returning `(α, error)`, or a run-time panic. -/
inductive GoResult (α : Type) where
  | ret (val : α) (err : Option GoError)
  | panic
  deriving DecidableEq

/-- `type weatherMetadata struct` (lines 25–29). -/
structure weatherMetadata where
  threshold : Int
  host : String
  preference : String
  deriving DecidableEq

/-- `type weatherScaler struct` (lines 20–23).  The `httpClient` field is
an external collaborator (its behavior is the `FetchOutcome` of each
call) and carries no state relevant to any claim, so it is omitted. -/
structure weatherScaler where
  metadata : weatherMetadata
  deriving DecidableEq

/-- `type WeatherData struct` (lines 35–39): fields `min_temp`,
`max_temp`, `the_temp`, Go `float64` modelled as ℚ. -/
structure WeatherData where
  MinTemp : ℚ
  MaxTemp : ℚ
  TheTemp : ℚ
  deriving DecidableEq

/-- `type WeatherDataList struct` (lines 31–33): the decoded
`consolidated_weather` array. -/
structure WeatherDataList where
  list : List WeatherData
  deriving DecidableEq

/-- `type ScalerConfig` (external, package `scalers`): the trigger
metadata map `map[string]string` is modelled as a partial lookup
function (`none` = key absent, mirroring the Go comma-ok idiom). -/
structure ScalerConfig where
  TriggerMetadata : String → Option String
  GlobalHTTPTimeout : Int

/-- Truncation of a rational toward zero: the Go conversion
`int(x)` on a `float64`, which discards the fraction (Go spec).
Computed as the truncating integer division of the numerator by the
(positive) denominator; `truncQ_eq_floor_ceil` below ties this to the
usual floor/ceiling characterization of truncation toward zero. -/
def truncQ (q : ℚ) : Int :=
  q.num.tdiv q.den

/-- Digit-string value: `some n` when the character list is a non-empty
run of decimal digits, else `none`. -/
def atoiDigits (cs : List Char) : Option Nat :=
  match cs with
  | [] => none
  | _ =>
    cs.foldl
      (fun acc c =>
        acc.bind (fun n => if c.isDigit then some (n * 10 + (c.toNat - 48)) else none))
      (some 0)

/-- `strconv.Atoi`: optional sign followed by at least one decimal
digit.  (The Go 64-bit range check is not modelled; no claim exercises
overflow.) -/
def atoi (s : String) : Option Int :=
  match s.data with
  | '+' :: rest => (atoiDigits rest).map (fun n => (n : Int))
  | '-' :: rest => (atoiDigits rest).map (fun n => -(n : Int))
  | cs => (atoiDigits cs).map (fun n => (n : Int))

/-- `func parseWeatherMetadata` (lines 56–84), with the external
`url.ParseRequestURI` abstracted as the parameter `validURI`.
Checks run in source order: the optional threshold (skipped when the
key is absent or its value is the empty string, leaving the zero value
`0`), then the required host (must be present and pass URI validation),
then the required non-empty preference (read with the Go map default
`""` for an absent key, line 78). -/
def parseWeatherMetadata (validURI : String → Bool) (config : ScalerConfig) :
    Except GoError weatherMetadata :=
  let thresholdStep : Except GoError Int :=
    match config.TriggerMetadata "threshold" with
    | some val =>
      if val ≠ "" then
        match atoi val with
        | none => .error "threshold: error parsing threshold"
        | some threshold => .ok threshold
      else .ok 0
    | none => .ok 0
  match thresholdStep with
  | .error e => .error e
  | .ok thr =>
    match config.TriggerMetadata "host" with
    | some val =>
      if validURI val then
        if (config.TriggerMetadata "preference").getD "" = "" then
          .error "no preference given"
        else
          .ok ⟨thr, val, (config.TriggerMetadata "preference").getD ""⟩
      else .error "invalid URL"
    | none => .error "no host URI given"

/-- `func NewWeatherScaler` (lines 41–54): wraps `parseWeatherMetadata`,
prefixing its error. -/
def NewWeatherScaler (validURI : String → Bool) (config : ScalerConfig) :
    Except GoError weatherScaler :=
  match parseWeatherMetadata validURI config with
  | .error err => .error ("error parsing weather metadata: " ++ err)
  | .ok meta => .ok ⟨meta⟩

/-- Outcome of the external world for one call of `getJSONData`
(lines 127–143): the HTTP GET errors, reading the body errors, JSON
unmarshalling errors, or a decoded value is produced. -/
inductive FetchOutcome where
  | httpGetErr (e : GoError)
  | readAllErr (e : GoError)
  | unmarshalErr (e : GoError)
  | ok (dat : WeatherDataList)
  deriving DecidableEq

/-- `func (s *weatherScaler) getJSONData` (lines 127–143): returns the
first error of the three steps unchanged, else the decoded data. -/
def getJSONData (outcome : FetchOutcome) : Except GoError WeatherDataList :=
  match outcome with
  | .httpGetErr e => .error e
  | .readAllErr e => .error e
  | .unmarshalErr e => .error e
  | .ok dat => .ok dat

/-- `func (s *weatherScaler) getWeather` (lines 145–166).  On a fetch or
decode error it returns `(100, err)` (the literal `return 100, err` at
line 153).  On success the switch on `preference` selects a field of
`wDat.List[0]` — indexing an empty list is a run-time panic in Go,
`GoResult.panic` here — and an unmatched preference leaves `temp` at its
zero value. -/
def getWeather (s : weatherScaler) (outcome : FetchOutcome) : GoResult Int :=
  match getJSONData outcome with
  | .error e => .ret 100 (some e)
  | .ok wDat =>
    if s.metadata.preference = "MinTemp" then
      match wDat.list with
      | [] => .panic
      | r :: _ => .ret (truncQ r.MinTemp) none
    else if s.metadata.preference = "MaxTemp" then
      match wDat.list with
      | [] => .panic
      | r :: _ => .ret (truncQ r.MaxTemp) none
    else if s.metadata.preference = "TheTemp" then
      match wDat.list with
      | [] => .panic
      | r :: _ => .ret (truncQ r.TheTemp) none
    else
      .ret 0 none

/-- `func (s *weatherScaler) IsActive` (lines 86–93): on a `getWeather`
error, return `(false, err)`; otherwise `temperature > threshold`. -/
def IsActive (s : weatherScaler) (outcome : FetchOutcome) : GoResult Bool :=
  match getWeather s outcome with
  | .panic => .panic
  | .ret _ (some err) => .ret false (some err)
  | .ret temperature none =>
      .ret (decide (s.metadata.threshold < temperature)) none

/-- `kedautil.NormalizeString` (external KEDA utility): replaces the
characters `/`, `.`, `:` and `%` by a dash. -/
def normalizeString (s : String) : String :=
  ⟨s.data.map (fun c => if c = '/' ∨ c = '.' ∨ c = ':' ∨ c = '%' then '-' else c)⟩

/-- `v2beta2.MetricIdentifier` (the one field used). -/
structure MetricIdentifier where
  Name : String
  deriving DecidableEq

/-- `v2beta2.MetricTarget` (the fields used); a `resource.Quantity`
built by `resource.NewQuantity(n, resource.DecimalSI)` is modelled by
its integer value. -/
structure MetricTarget where
  TargetType : String
  AverageValue : Int
  deriving DecidableEq

/-- `v2beta2.ExternalMetricSource` (the fields used). -/
structure ExternalMetricSource where
  Metric : MetricIdentifier
  Target : MetricTarget
  deriving DecidableEq

/-- `v2beta2.MetricSpec` (the fields used). -/
structure MetricSpec where
  External : ExternalMetricSource
  SpecType : String
  deriving DecidableEq

/-- The package-level constant `externalMetricType` (the string
`"External"` of `v2beta2.ExternalMetricSourceType`). -/
def externalMetricType : String := "External"

/-- `v2beta2.AverageValueMetricType` (the string `"AverageValue"`). -/
def averageValueMetricType : String := "AverageValue"

/-- `func (s *weatherScaler) GetMetricSpecForScaling` (lines 95–108).
Pure: it takes no `FetchOutcome`, i.e. performs no network round trip;
its result depends only on the stored configuration. -/
def GetMetricSpecForScaling (s : weatherScaler) : List MetricSpec :=
  [{ External :=
      { Metric := { Name := normalizeString "weather" },
        Target :=
          { TargetType := averageValueMetricType,
            AverageValue := s.metadata.threshold } },
     SpecType := externalMetricType }]

/-- `external_metrics.ExternalMetricValue` (the fields used); the
timestamp `metav1.Now()` is modelled by an instant passed as the `now`
argument of `GetMetrics`. -/
structure ExternalMetricValue where
  MetricName : String
  Value : Int
  Timestamp : Int
  deriving DecidableEq

/-- `func (s *weatherScaler) GetMetrics` (lines 110–121): calls
`getWeather` and DISCARDS its error (`temp, _ := s.getWeather()`,
line 112), then returns a single sample with the caller-supplied metric
name, the returned temperature, and the current time, and a nil
error. -/
def GetMetrics (s : weatherScaler) (metricName : String) (now : Int)
    (outcome : FetchOutcome) : GoResult (List ExternalMetricValue) :=
  match getWeather s outcome with
  | .panic => .panic
  | .ret temp _ => .ret [⟨metricName, temp, now⟩] none

/-- `func (s *weatherScaler) Close` (lines 123–125): returns nil. -/
def Close (_ : weatherScaler) : Option GoError := none

/-- One invocation of a public method of the scaler, with the per-call
inputs it needs (the `FetchOutcome` stands for the external world of
that call's network round trip). -/
inductive Op where
  | isActiveOp (outcome : FetchOutcome)
  | getMetricsOp (metricName : String) (now : Int) (outcome : FetchOutcome)
  | metricSpecOp
  | closeOp

/-- The output of one method invocation. -/
inductive OpResult where
  | activeRes (r : GoResult Bool)
  | metricsRes (r : GoResult (List ExternalMetricValue))
  | specRes (r : List MetricSpec)
  | closeRes (e : Option GoError)

/-- One method call with the receiver state threaded explicitly: the
result, and the scaler as it stands after the call.  No method body in
the source (lines 86–125) assigns to any field of the receiver, so each
call leaves the scaler exactly as it found it. -/
def runOp (s : weatherScaler) : Op → OpResult × weatherScaler
  | .isActiveOp outcome => (.activeRes (IsActive s outcome), s)
  | .getMetricsOp metricName now outcome =>
      (.metricsRes (GetMetrics s metricName now outcome), s)
  | .metricSpecOp => (.specRes (GetMetricSpecForScaling s), s)
  | .closeOp => (.closeRes (Close s), s)

/-- The field selection of the table in §4.1 of the specification:
`MinTemp` reads `min_temp`, `MaxTemp` reads `max_temp`, `TheTemp`
reads `the_temp`. -/
def specField (preference : String) (r : WeatherData) : ℚ :=
  if preference = "MinTemp" then r.MinTemp
  else if preference = "MaxTemp" then r.MaxTemp
  else r.TheTemp

/-- A configuration map with a valid host and non-empty preference but NO
"threshold" key at all. -/
def cfgNoThreshold : ScalerConfig :=
  ⟨fun k =>
    if k = "host" then some "http://example.com/w"
    else if k = "preference" then some "MinTemp" else none, 300⟩

/-- The configuration map with one key dropped (used to compare an
empty-valued threshold key with an absent one). -/
def removeKey (config : ScalerConfig) (k : String) : ScalerConfig :=
  ⟨fun k2 => if k2 = k then none else config.TriggerMetadata k2,
    config.GlobalHTTPTimeout⟩

/-- Sanity: `truncQ` is truncation toward zero, i.e. floor on
nonnegative rationals and ceiling on negative ones. -/
theorem truncQ_eq_floor_ceil (q : ℚ) :
    truncQ q = if 0 ≤ q then ⌊q⌋ else ⌈q⌉ := by
  unfold truncQ
  by_cases h : 0 ≤ q
  · rw [if_pos h, Rat.floor_def]
    exact Int.tdiv_eq_ediv (Rat.num_nonneg.mpr h) (Int.natCast_nonneg _)
  · rw [if_neg h]
    have hceil : (⌈q⌉ : Int) = -⌊-q⌋ := rfl
    have hnum : (-q).num = -q.num := rfl
    have hden : (-q).den = q.den := rfl
    rw [hceil, Rat.floor_def, hnum, hden]
    rw [← Rat.num_nonneg] at h
    have hneg : q.num.tdiv q.den = -((-q.num).tdiv q.den) := by
      rw [Int.neg_tdiv, Int.neg_neg]
    have h2 : (-q.num).tdiv q.den = -q.num / q.den :=
      Int.tdiv_eq_ediv (by omega) (Int.natCast_nonneg _)
    rw [hneg, h2]

/-- C1: for every configured preference among MinTemp, MaxTemp and
TheTemp and every successfully fetched non-empty reading sequence,
`IsActive` succeeds (no error) and returns true iff the field selected
from the FIRST reading by the §4.1 table (`specField`), truncated toward
zero to an integer by `truncQ`, is strictly greater than the configured
threshold. -/
theorem isActive_iff_extracted_gt_threshold (s : weatherScaler)
    (r : WeatherData) (rest : List WeatherData)
    (h : s.metadata.preference = "MinTemp" ∨ s.metadata.preference = "MaxTemp" ∨
      s.metadata.preference = "TheTemp") :
    IsActive s (.ok ⟨r :: rest⟩) =
      .ret (decide (s.metadata.threshold < truncQ (specField s.metadata.preference r)))
        none := by
  obtain ⟨⟨thr, host, pref⟩⟩ := s
  rcases h with h | h | h <;> subst h <;> rfl

/-- C1 witness: threshold 5, preference MinTemp, first reading with
min_temp 5.9: the comparison is truncQ 5.9 = 5 > 5, i.e. inactive. -/
theorem isActive_iff_extracted_gt_threshold_witness :
    IsActive ⟨⟨5, "http://h", "MinTemp"⟩⟩ (.ok ⟨[⟨mkRat 59 10, 7, 8⟩]⟩) =
      .ret (decide ((5 : Int) < truncQ (specField "MinTemp" ⟨mkRat 59 10, 7, 8⟩)))
        none :=
  isActive_iff_extracted_gt_threshold ⟨⟨5, "http://h", "MinTemp"⟩⟩
    ⟨mkRat 59 10, 7, 8⟩ [] (Or.inl rfl)

/-- C4: contrary to the claim, on a response that decodes to an EMPTY
reading sequence the code indexes `wDat.List[0]` unchecked and panics
(index out of range); no `DataAbsentError` exists in the source.  Shown
at a concrete input: preference MinTemp, empty `consolidated_weather`. -/
theorem isActive_empty_list_panics :
    IsActive ⟨⟨20, "http://example.com/w", "MinTemp"⟩⟩ (.ok ⟨[]⟩) =
      GoResult.panic := rfl

/-- C5: for every scaler, `GetMetricSpecForScaling` — a pure function of
the stored configuration, taking no `FetchOutcome`, hence independent of
any fetch — returns exactly one descriptor: an external metric named
"weather" (the normalized literal) with an average-value target equal to
the configured threshold.  The statement quantifies over every scaler,
so every valid threshold including 0 is covered. -/
theorem getMetricSpecForScaling_eq (s : weatherScaler) :
    GetMetricSpecForScaling s =
      [⟨⟨⟨"weather"⟩, ⟨averageValueMetricType, s.metadata.threshold⟩⟩,
        externalMetricType⟩] := rfl

/-- C6: every error produced by the fetch/decode pipeline
(`getJSONData`) is propagated by `IsActive` to the caller unchanged
(same error value), with the Go zero value `false` beside it and no
fallback activity computed. -/
theorem isActive_propagates_error (s : weatherScaler) (outcome : FetchOutcome)
    (e : GoError) (h : getJSONData outcome = .error e) :
    IsActive s outcome = .ret false (some e) := by
  cases outcome <;> simp_all [getJSONData, IsActive, getWeather]

/-- C6 witness: a concrete network failure is returned verbatim. -/
theorem isActive_propagates_error_witness :
    IsActive ⟨⟨20, "http://h", "MinTemp"⟩⟩ (.httpGetErr "connection refused") =
      .ret false (some "connection refused") :=
  isActive_propagates_error ⟨⟨20, "http://h", "MinTemp"⟩⟩
    (.httpGetErr "connection refused") "connection refused" rfl

/-- C7: for every successful fetch-and-extract (`getWeather` returns a
value with nil error), `GetMetrics` returns exactly one sample whose
name is the caller-supplied metric name, whose value is the extracted
integer, and whose timestamp is the current instant of the call; the
result is computed afresh from the per-call inputs alone (the embedding
of the method is a function of them only — the source keeps no
cross-call state). -/
theorem getMetrics_success_sample (s : weatherScaler) (metricName : String)
    (now : Int) (outcome : FetchOutcome) (t : Int)
    (h : getWeather s outcome = .ret t none) :
    GetMetrics s metricName now outcome = .ret [⟨metricName, t, now⟩] none := by
  unfold GetMetrics
  rw [h]

/-- C7 witness: the §8 scenario — the_temp 25.7, preference TheTemp —
yields the single sample (m, 25, 42). -/
theorem getMetrics_success_sample_witness :
    GetMetrics ⟨⟨20, "http://h", "TheTemp"⟩⟩ "m" 42 (.ok ⟨[⟨1, 2, mkRat 257 10⟩]⟩) =
      .ret [⟨"m", 25, 42⟩] none :=
  getMetrics_success_sample ⟨⟨20, "http://h", "TheTemp"⟩⟩ "m" 42
    (.ok ⟨[⟨1, 2, mkRat 257 10⟩]⟩) 25 (by decide)

/-- C8: on a successfully decoded non-empty reading sequence, a
preference matching none of the three recognized values leaves the Go
zero value 0 as the extracted temperature, without failing, so
`IsActive` compares 0 against the threshold. -/
theorem getWeather_unmatched_pref_zero (s : weatherScaler) (dat : WeatherDataList)
    (h1 : s.metadata.preference ≠ "MinTemp")
    (h2 : s.metadata.preference ≠ "MaxTemp")
    (h3 : s.metadata.preference ≠ "TheTemp")
    (_hne : dat.list ≠ []) :
    getWeather s (.ok dat) = .ret 0 none ∧
      IsActive s (.ok dat) = .ret (decide (s.metadata.threshold < 0)) none := by
  have hg : getWeather s (.ok dat) = .ret 0 none := by
    simp [getWeather, getJSONData, h1, h2, h3]
  exact ⟨hg, by simp [IsActive, hg]⟩

/-- C8 witness: an unrecognized preference with one reading and a
negative threshold: extraction yields 0 and the scaler is active. -/
theorem getWeather_unmatched_pref_zero_witness :
    getWeather ⟨⟨-1, "http://h", "Bogus"⟩⟩ (.ok ⟨[⟨1, 2, 3⟩]⟩) = .ret 0 none ∧
      IsActive ⟨⟨-1, "http://h", "Bogus"⟩⟩ (.ok ⟨[⟨1, 2, 3⟩]⟩) =
        .ret (decide ((-1 : Int) < 0)) none :=
  getWeather_unmatched_pref_zero ⟨⟨-1, "http://h", "Bogus"⟩⟩ ⟨[⟨1, 2, 3⟩]⟩
    (by decide) (by decide) (by decide) (by decide)

/-- C9: every method invocation — is-active, current-metrics,
metric-spec, close — leaves the scaler state, in particular its stored
configuration (threshold, host, preference), exactly as it found it: no
method body assigns to the receiver. -/
theorem runOp_preserves_metadata (s : weatherScaler) (op : Op) :
    ((runOp s op).2).metadata = s.metadata := by
  cases op <;> rfl

/-- C2 counterexample: on a concrete fetch error, `GetMetrics` does
swallow the error (nil error returned) but the single sample's value is
100 — the sentinel `getWeather` returns on its error path (line 153) —
not the zero-equivalent integer 0 the claim states. -/
theorem getMetrics_error_value_not_zero :
    GetMetrics ⟨⟨20, "http://h", "MinTemp"⟩⟩ "weather-metric" 7
        (.httpGetErr "connection refused") =
      .ret [⟨"weather-metric", 100, 7⟩] none ∧ (100 : Int) ≠ 0 :=
  ⟨rfl, by decide⟩

/-- C2 (amended): for every fetch or decode error, `GetMetrics` swallows
the error — it returns a nil error to the caller — and returns a single
sample whose value is 100, the sentinel value `getWeather` returns on
error, not 0. -/
theorem getMetrics_swallows_error_value_100 (s : weatherScaler)
    (metricName : String) (now : Int) (outcome : FetchOutcome) (e : GoError)
    (h : getJSONData outcome = .error e) :
    GetMetrics s metricName now outcome = .ret [⟨metricName, 100, now⟩] none := by
  cases outcome <;> simp_all [getJSONData, GetMetrics, getWeather]

/-- C2 witness: a concrete decode error yields the single 100-valued
sample with nil error. -/
theorem getMetrics_swallows_error_value_100_witness :
    GetMetrics ⟨⟨20, "http://h", "MaxTemp"⟩⟩ "m" 9 (.unmarshalErr "bad json") =
      .ret [⟨"m", 100, 9⟩] none :=
  getMetrics_swallows_error_value_100 ⟨⟨20, "http://h", "MaxTemp"⟩⟩ "m" 9
    (.unmarshalErr "bad json") "bad json" rfl

/-- C3 counterexample: with the threshold key ABSENT (and a valid host
and non-empty preference), construction SUCCEEDS — the stored threshold
silently defaults to 0 — whereas the claim requires construction to
fail. -/
theorem newWeatherScaler_absent_threshold_succeeds :
    cfgNoThreshold.TriggerMetadata "threshold" = none ∧
      NewWeatherScaler (fun _ => true) cfgNoThreshold =
        .ok ⟨⟨0, "http://example.com/w", "MinTemp"⟩⟩ :=
  ⟨rfl, rfl⟩

/-- C3 (amended): for every URI validator and configuration map,
construction succeeds iff (a) whenever the threshold key is present with
a non-empty value, that value parses as an integer — an absent key or an
empty value is accepted and silently defaults to 0; (b) the host key is
present and its value passes URI validation; and (c) the preference
value is non-empty. -/
theorem newWeatherScaler_ok_iff (validURI : String → Bool) (config : ScalerConfig) :
    (∃ s, NewWeatherScaler validURI config = .ok s) ↔
      ((∀ val, config.TriggerMetadata "threshold" = some val → val ≠ "" →
          (atoi val).isSome) ∧
        (∃ hostVal, config.TriggerMetadata "host" = some hostVal ∧
          validURI hostVal = true) ∧
        (config.TriggerMetadata "preference").getD "" ≠ "") := by
  have hwrap : (∃ s, NewWeatherScaler validURI config = .ok s) ↔
      (∃ m, parseWeatherMetadata validURI config = .ok m) := by
    unfold NewWeatherScaler
    rcases parseWeatherMetadata validURI config with e | m <;> simp
  rw [hwrap]
  unfold parseWeatherMetadata
  rcases hth : config.TriggerMetadata "threshold" with _ | val <;>
    rcases hhost : config.TriggerMetadata "host" with _ | hostVal <;>
      simp only [hth, hhost]
  · simp
  · by_cases hpref : (config.TriggerMetadata "preference").getD "" = "" <;>
      rcases hvalid : validURI hostVal <;> simp_all
  · by_cases hval : val = ""
    · simp_all
    · rcases hatoi : atoi val with _ | n <;> simp_all
  · by_cases hval : val = ""
    · subst hval
      by_cases hpref : (config.TriggerMetadata "preference").getD "" = "" <;>
        rcases hvalid : validURI hostVal <;> simp_all
    · rcases hatoi : atoi val with _ | n
      · simp_all
      · by_cases hpref : (config.TriggerMetadata "preference").getD "" = "" <;>
          rcases hvalid : validURI hostVal <;> simp_all

/-- C10: a "threshold" key present but mapped to the empty string is
skipped exactly like an absent key: construction succeeds (given a valid
host and non-empty preference) with stored threshold 0, and parsing the
map with the threshold key removed gives the identical result. -/
theorem empty_threshold_same_as_absent (validURI : String → Bool)
    (config : ScalerConfig) (hostVal : String)
    (hth : config.TriggerMetadata "threshold" = some "")
    (hhost : config.TriggerMetadata "host" = some hostVal)
    (hvalid : validURI hostVal = true)
    (hpref : (config.TriggerMetadata "preference").getD "" ≠ "") :
    NewWeatherScaler validURI config =
      .ok ⟨⟨0, hostVal, (config.TriggerMetadata "preference").getD ""⟩⟩ ∧
      NewWeatherScaler validURI config =
        NewWeatherScaler validURI (removeKey config "threshold") := by
  have hp : parseWeatherMetadata validURI config =
      .ok ⟨0, hostVal, (config.TriggerMetadata "preference").getD ""⟩ := by
    unfold parseWeatherMetadata
    simp [hth, hhost, hvalid, hpref]
  have hr : parseWeatherMetadata validURI (removeKey config "threshold") =
      .ok ⟨0, hostVal, (config.TriggerMetadata "preference").getD ""⟩ := by
    unfold parseWeatherMetadata removeKey
    simp [hhost, hvalid, hpref]
  constructor
  · unfold NewWeatherScaler
    rw [hp]
  · unfold NewWeatherScaler
    rw [hp, hr]

/-- C10 witness: a concrete map with threshold ↦ "" constructs a scaler
with threshold 0, identically to the map without the key. -/
theorem empty_threshold_same_as_absent_witness :
    NewWeatherScaler (fun _ => true)
        ⟨fun k =>
          if k = "threshold" then some ""
          else if k = "host" then some "http://example.com/w"
          else if k = "preference" then some "TheTemp" else none, 300⟩ =
      .ok ⟨⟨0, "http://example.com/w", "TheTemp"⟩⟩ ∧
      NewWeatherScaler (fun _ => true)
          ⟨fun k =>
            if k = "threshold" then some ""
            else if k = "host" then some "http://example.com/w"
            else if k = "preference" then some "TheTemp" else none, 300⟩ =
        NewWeatherScaler (fun _ => true)
          (removeKey
            ⟨fun k =>
              if k = "threshold" then some ""
              else if k = "host" then some "http://example.com/w"
              else if k = "preference" then some "TheTemp" else none, 300⟩
            "threshold") :=
  empty_threshold_same_as_absent (fun _ => true)
    ⟨fun k =>
      if k = "threshold" then some ""
      else if k = "host" then some "http://example.com/w"
      else if k = "preference" then some "TheTemp" else none, 300⟩
    "http://example.com/w" rfl rfl rfl (by decide)

end Scalers
